import Mathlib

/-!
Verification of the Streamlit company-performance dashboard
(`src/Streamlit_Dashboard/app.py`).

The program manipulates pandas DataFrames.  We embed a DataFrame as an
ordered list of named columns, each holding a list of cells.  Machine
floats in the source carry only exact values in the scenarios the
specification discusses, so numeric cells are modelled as integers;
dates are modelled as integer codes whose order agrees with calendar
order.  Per-cell parsing performed by the pandas library
(`pd.to_datetime` / `pd.to_numeric` with `errors='coerce'`) is modelled
by explicit total functions below.
-/

namespace Dashboard

/-- A single cell of a table: a number, a string, a date (encoded as an
integer that orders chronologically), the null-date marker `NaT`, or the
generic missing marker `NaN`. -/
inductive Cell where
  | num (v : Int)
  | str (s : String)
  | date (d : Int)
  | natMarker
  | nan
deriving DecidableEq, Repr

/-- A named column. -/
structure Col where
  name : String
  cells : List Cell
deriving DecidableEq, Repr

/-- A DataFrame: an ordered list of named columns. -/
abbrev DF := List Col

/-- Number of rows of a DataFrame (length of its first column; pandas
DataFrames are rectangular, see `Rect`). -/
def nrows : DF → Nat
  | [] => 0
  | c :: _ => c.cells.length

/-- The ordered list of column labels. -/
def colNames (df : DF) : List String := df.map (fun c => c.name)

/-- How many columns carry the label `n`. -/
def countName (df : DF) (n : String) : Nat :=
  (df.filter (fun c => c.name = n)).length

/-- Rectangularity: every column has the same length. -/
def Rect (df : DF) : Prop := ∀ c ∈ df, c.cells.length = nrows df

instance (df : DF) : Decidable (Rect df) := by
  unfold Rect; infer_instance

/-! ### Python string primitives used by the source -/

/-- Model of Python `str.strip()`: drop whitespace from both ends. -/
def strip (s : String) : String :=
  String.mk ((((s.data.dropWhile Char.isWhitespace).reverse).dropWhile
    Char.isWhitespace).reverse)

/-- Model of Python `str.lower()`. -/
def lower (s : String) : String := String.mk (s.data.map Char.toLower)

/-- Whether `pat` occurs as a contiguous substring of `hay`
(Python `pat in hay`). -/
def containsSub (hay pat : String) : Bool :=
  go pat.data hay.data
where
  go (pat : List Char) : List Char → Bool
    | [] => pat.isEmpty
    | c :: t => pat.isPrefixOf (c :: t) || go pat t

/-- Whether any of the given substrings occurs in `s`. -/
def containsAny (s : String) (pats : List String) : Bool :=
  pats.any (fun p => containsSub s p)

/-! ### Per-cell parsing (models of the pandas library calls) -/

/-- Digits-only string to a natural number (the integer formats exercised
by the program's data). -/
def natOfDigits (l : List Char) : Option Nat :=
  if l.isEmpty then none
  else if l.all Char.isDigit then
    some (l.foldl (fun a c => a * 10 + (c.toNat - 48)) 0)
  else none

/-- Model of numeric parsing of one string as done by `pd.to_numeric`
(restricted to optionally-signed integer literals, the only numeric
strings the specification's scenarios use). -/
def strToInt (s : String) : Option Int :=
  match (strip s).data with
  | '-' :: rest => (natOfDigits rest).map (fun n => -(n : Int))
  | l => (natOfDigits l).map (fun n => (n : Int))

/-- Model of `pd.to_numeric(cell, errors='coerce')` on one cell:
numbers pass through, numeric strings parse, everything else yields
no value (pandas `NaN`). -/
def parseNumCell : Cell → Option Int
  | Cell.num v => some v
  | Cell.str s => strToInt s
  | _ => none

/-- Split a character list at each dash (the field separator of ISO
dates). -/
def splitDash : List Char → List (List Char)
  | [] => [[]]
  | c :: t =>
    if c = '-' then [] :: splitDash t
    else
      match splitDash t with
      | [] => [[c]]
      | h :: t2 => (c :: h) :: t2

/-- Model of an ISO `YYYY-MM-DD` date literal, encoded as
`y*10000 + m*100 + d` so that the encoding orders chronologically. -/
def strToDate (s : String) : Option Int :=
  match splitDash (strip s).data with
  | [y, m, d] =>
    match natOfDigits y, natOfDigits m, natOfDigits d with
    | some yn, some mn, some dn =>
      if 1 ≤ mn ∧ mn ≤ 12 ∧ 1 ≤ dn ∧ dn ≤ 31 then
        some ((yn : Int) * 10000 + (mn : Int) * 100 + (dn : Int))
      else none
    | _, _, _ => none
  | _ => none

/-- Model of `pd.to_datetime(cell, errors='coerce')` on one cell:
dates pass through, integers are epoch offsets (kept as their own
code), ISO date strings parse, everything else yields no value
(pandas `NaT`). -/
def parseDateCell : Cell → Option Int
  | Cell.date d => some d
  | Cell.num v => some v
  | Cell.str s => strToDate s
  | _ => none

/-- `pd.to_numeric(x, errors='coerce').fillna(0)` on one cell
(app.py lines 43 and 48): coerce, defaulting failures to numeric 0. -/
def coerceNum (c : Cell) : Cell :=
  match parseNumCell c with
  | some v => Cell.num v
  | none => Cell.num 0

/-- `pd.to_datetime(x, errors='coerce')` on one cell (app.py line 37):
coerce, defaulting failures to the null-date marker `NaT`. -/
def coerceDate (c : Cell) : Cell :=
  match parseDateCell c with
  | some d => Cell.date d
  | none => Cell.natMarker

/-! ### The Standardizer (`_standardize_dataframe`, app.py lines 11-53) -/

/-- The column-name classification of app.py lines 21-31: trim, lower,
then first-match over the three substring rule groups; unmatched names
keep the trimmed original. -/
def classify (col : String) : String :=
  let name := strip col
  let lname := lower name
  if containsSub lname "date" || containsSub lname "month" ||
      containsSub lname "period" then "Date"
  else if containsSub lname "revenue" || containsSub lname "sale" ||
      containsSub lname "sales" || containsSub lname "amount" then "Revenue"
  else if containsSub lname "expense" || containsSub lname "cost" then "Expenses"
  else name

/-- `df.rename(columns=col_map)` for the map built on lines 20-31: every
label is a key of `col_map`, so renaming relabels each column by
`classify`. -/
def renameCols (df : DF) : DF :=
  df.map (fun c => ⟨classify c.name, c.cells⟩)

/-- One canonical-column step of app.py lines 36-51
(`if n in df.columns: df[n] = coerce(df[n]) else: df[n] = default`).
With no column labelled `n`, assignment appends a fresh column of the
default.  With exactly one, assignment replaces its cells by the
per-cell coercion.  With two or more, `df[n]` selects a two-column
frame and `pd.to_datetime` / `pd.to_numeric` raise (`ValueError` /
`TypeError`), modelled as `none`. -/
def fixColumn (df : DF) (n : String) (co : Cell → Cell) (d : Cell) : Option DF :=
  if countName df n = 0 then
    some (df ++ [⟨n, List.replicate (nrows df) d⟩])
  else if countName df n = 1 then
    some (df.map (fun c => if c.name = n then ⟨c.name, c.cells.map co⟩ else c))
  else none

/-- The Standardizer, app.py lines 11-53: rename by classification, then
fix the `Date`, `Revenue` and `Expenses` columns in that order.
`none` models an exception escaping the function. -/
def _standardize_dataframe (df : DF) : Option DF :=
  (fixColumn (renameCols df) "Date" coerceDate Cell.natMarker).bind (fun d1 =>
  (fixColumn d1 "Revenue" coerceNum (Cell.num 0)).bind (fun d2 =>
  fixColumn d2 "Expenses" coerceNum (Cell.num 0)))

/-! ### The Merger (app.py lines 68-70) -/

/-- `df[n] = v` for a scalar `v` (app.py lines 68-69): if a column
labelled `n` exists its cells are overwritten by the broadcast scalar,
otherwise a fresh column of the scalar is appended. -/
def setScalar (df : DF) (n : String) (v : Cell) : DF :=
  if (colNames df).contains n then
    df.map (fun c => if c.name = n then ⟨c.name, List.replicate c.cells.length v⟩ else c)
  else
    df ++ [⟨n, List.replicate (nrows df) v⟩]

/-- The cells a concatenation draws from `df` for label `n`: the first
column so labelled, or a column of missing markers when absent. -/
def getCells (df : DF) (n : String) : List Cell :=
  match df.find? (fun c => c.name = n) with
  | some c => c.cells
  | none => List.replicate (nrows df) Cell.nan

/-- `pd.concat([df1, df2], ignore_index=True)` (app.py line 70) on
frames with unique column labels: the label set is the ordered union,
each output column stacks `df1`'s cells over `df2`'s, absent columns
filling with the missing marker. -/
def pd_concat (df1 df2 : DF) : DF :=
  let names := colNames df1 ++
    (colNames df2).filter (fun n => !((colNames df1).contains n))
  names.map (fun n => ⟨n, getCells df1 n ++ getCells df2 n⟩)

/-- app.py lines 68-70: label the two standardized frames and
concatenate them. -/
def df_combined (df1 df2 : DF) : DF :=
  pd_concat (setScalar df1 "Company" (Cell.str "Company A"))
    (setScalar df2 "Company" (Cell.str "Company B"))

/-- Numeric reading of a cell for summation (`Series.sum` ignores
non-numeric content; standardized numeric columns hold only numbers). -/
def cellVal : Cell → Int
  | Cell.num v => v
  | _ => 0

/-- Sum of a labelled column. -/
def colSum (df : DF) (n : String) : Int :=
  ((getCells df n).map cellVal).sum

/-- `df_combined['Revenue'].sum()` (app.py line 81). -/
def total_revenue (df : DF) : Int := colSum df "Revenue"

/-- `df_combined['Expenses'].sum()` (app.py line 84). -/
def total_expenses (df : DF) : Int := colSum df "Expenses"

/-! ### Chart axis choice (app.py lines 96-102) -/

/-- `Series.isna()` on one cell. -/
def isNa : Cell → Bool
  | Cell.natMarker => true
  | Cell.nan => true
  | _ => false

/-- Ascending comparison on `Date` cells with null dates last
(`sort_values` default `na_position='last'`). -/
def dateLe (a b : Cell) : Bool :=
  match a, b with
  | Cell.date x, Cell.date y => x ≤ y
  | Cell.date _, _ => true
  | _, Cell.date _ => false
  | _, _ => true

/-- `df.sort_values('Date')` (app.py line 101): rearrange the rows into
an order ascending on the `Date` column, nulls last.  (pandas does not
promise a stable order among ties; we model one deterministic ascending
rearrangement.) -/
def sortValuesDate (df : DF) : DF :=
  let keys := getCells df "Date"
  let idx := (List.range (nrows df)).mergeSort
    (fun i j => dateLe (keys.getD i Cell.nan) (keys.getD j Cell.nan))
  df.map (fun c => ⟨c.name, idx.map (fun i => c.cells.getD i Cell.nan)⟩)

/-- `df.reset_index().rename(columns={'index': 'Period'})`
(app.py line 98), valid when no column is already labelled `index`:
prepend the row-index column and relabel it `Period`. -/
def resetIndexPeriod (df : DF) : DF :=
  ((⟨"index", (List.range (nrows df)).map (fun i => Cell.num (Int.ofNat i))⟩ : Col)
      :: df).map
    (fun c => if c.name = "index" then ⟨"Period", c.cells⟩ else c)

/-- app.py lines 96-102: pick the horizontal axis and the frame to
plot.  `Period` over the row index when `Date` is absent or entirely
null, otherwise `Date` with the rows sorted ascending by date. -/
def chooseAxis (df : DF) : String × DF :=
  if !((colNames df).contains "Date") || (getCells df "Date").all isNa then
    ("Period", resetIndexPeriod df)
  else
    ("Date", sortValuesDate df)

/-! ### Top-level flow (app.py lines 62-117) -/

/-- What the page shows after a run: the upload prompt, the sidebar
load-failure message with no dashboard, or the full dashboard over the
combined frame. -/
inductive RenderState where
  | waitingForUploads
  | loadError (msg : String)
  | dashboard (combined : DF)
deriving DecidableEq, Repr

/-- The body of the `try` block, app.py lines 64-70.  Each uploaded
file's CSV parse is an `Except` (the `pd.read_csv` outcome); a
standardizer failure is the exception it lets escape. -/
def tryLoad (f1 f2 : Except String DF) : Except String DF :=
  match f1 with
  | Except.error e => Except.error e
  | Except.ok d1 =>
    match f2 with
    | Except.error e => Except.error e
    | Except.ok d2 =>
      match _standardize_dataframe d1 with
      | none => Except.error "coercion of a duplicated column failed"
      | some s1 =>
        match _standardize_dataframe d2 with
        | none => Except.error "coercion of a duplicated column failed"
        | some s2 => Except.ok (df_combined s1 s2)

/-- app.py lines 62-117: with both files present, run the `try` block;
an exception paints the sidebar error (line 73) and, since
`df_combined` was never bound, skips every dashboard element
(lines 76-115).  With a file missing, only the upload prompt shows. -/
def runApp (upload1 upload2 : Option (Except String DF)) : RenderState :=
  match upload1, upload2 with
  | some f1, some f2 =>
    match tryLoad f1 f2 with
    | Except.ok comb => RenderState.dashboard comb
    | Except.error e => RenderState.loadError ("Error loading files: " ++ e)
  | _, _ => RenderState.waitingForUploads

/-! ### Characterization of the Standardizer -/

/-- What the Standardizer does to one existing column: relabel it by
`classify` and coerce its cells when the new label is canonical. -/
def stdColumn (c : Col) : Col :=
  if classify c.name = "Date" then ⟨"Date", c.cells.map coerceDate⟩
  else if classify c.name = "Revenue" then ⟨"Revenue", c.cells.map coerceNum⟩
  else if classify c.name = "Expenses" then ⟨"Expenses", c.cells.map coerceNum⟩
  else ⟨classify c.name, c.cells⟩

/-- How many input columns classify to the canonical name `n`. -/
def classifiedCount (df : DF) (n : String) : Nat :=
  (df.filter (fun c => classify c.name = n)).length

/-- The default column appended for a canonical name no input column
classifies to. -/
def defaultCol (df : DF) (n : String) (d : Cell) : DF :=
  if classifiedCount df n = 0 then [⟨n, List.replicate (nrows df) d⟩] else []

/-- Closed form of the Standardizer's successful output: every input
column relabelled and coerced in place, then defaults for the absent
canonical columns in the order `Date`, `Revenue`, `Expenses`. -/
def stdResult (df : DF) : DF :=
  df.map stdColumn ++ defaultCol df "Date" Cell.natMarker ++
    defaultCol df "Revenue" (Cell.num 0) ++ defaultCol df "Expenses" (Cell.num 0)

/-- The Standardizer succeeds exactly when no canonical name is the
target of two or more input columns. -/
def CanonOk (df : DF) : Prop :=
  classifiedCount df "Date" ≤ 1 ∧ classifiedCount df "Revenue" ≤ 1 ∧
    classifiedCount df "Expenses" ≤ 1

instance (df : DF) : Decidable (CanonOk df) := by
  unfold CanonOk
  infer_instance

/-- In-place coercion of the (unique) column labelled `n`. -/
def mapCo (df : DF) (n : String) (co : Cell → Cell) : DF :=
  df.map (fun c => if c.name = n then ⟨c.name, c.cells.map co⟩ else c)

lemma countName_nil (n : String) : countName [] n = 0 := rfl

lemma countName_cons (c : Col) (df : DF) (n : String) :
    countName (c :: df) n = (if c.name = n then 1 else 0) + countName df n := by
  simp only [countName, List.filter_cons]
  split
  · next h => simp [List.length_cons, if_pos (by simpa using h)]; omega
  · next h => simp [if_neg (by simpa using h)]

lemma countName_append (a b : DF) (n : String) :
    countName (a ++ b) n = countName a n + countName b n := by
  simp [countName, List.filter_append]

lemma countName_eq_zero (df : DF) (n : String) :
    countName df n = 0 ↔ ∀ c ∈ df, c.name ≠ n := by
  simp [countName, List.length_eq_zero, List.filter_eq_nil_iff]

lemma countName_mapCo (df : DF) (n m : String) (co : Cell → Cell) :
    countName (mapCo df n co) m = countName df m := by
  induction df with
  | nil => rfl
  | cons c t ih =>
    simp only [mapCo, List.map_cons] at *
    by_cases h : c.name = n
    · simp [countName_cons, h, ih]
    · simp [countName_cons, h, ih]

lemma classifiedCount_cons (c : Col) (df : DF) (n : String) :
    classifiedCount (c :: df) n =
      (if classify c.name = n then 1 else 0) + classifiedCount df n := by
  simp only [classifiedCount, List.filter_cons]
  split
  · next h => simp [if_pos (by simpa using h)]; omega
  · next h => simp [if_neg (by simpa using h)]

lemma countName_renameCols (df : DF) (n : String) :
    countName (renameCols df) n = classifiedCount df n := by
  induction df with
  | nil => rfl
  | cons c t ih =>
    have e : renameCols (c :: t) = ⟨classify c.name, c.cells⟩ :: renameCols t := rfl
    rw [e, countName_cons, classifiedCount_cons, ih]

lemma nrows_map_of_length (df : DF) (f : Col → Col)
    (h : ∀ c, (f c).cells.length = c.cells.length) :
    nrows (df.map f) = nrows df := by
  cases df with
  | nil => rfl
  | cons c t => simp [nrows, h]

lemma nrows_mapCo (df : DF) (n : String) (co : Cell → Cell) :
    nrows (mapCo df n co) = nrows df := by
  apply nrows_map_of_length
  intro c
  by_cases h : c.name = n <;> simp [h]

lemma nrows_renameCols (df : DF) : nrows (renameCols df) = nrows df := by
  apply nrows_map_of_length
  intro c
  simp

lemma nrows_append_single (df : DF) (c : Col)
    (h : c.cells.length = nrows df) : nrows (df ++ [c]) = nrows df := by
  cases df with
  | nil => simpa [nrows] using h
  | cons d t => simp [nrows]

lemma mapCo_of_countName_zero (df : DF) (n : String) (co : Cell → Cell)
    (h : countName df n = 0) : mapCo df n co = df := by
  have h' := (countName_eq_zero df n).1 h
  unfold mapCo
  conv_rhs => rw [← List.map_id df]
  exact List.map_congr_left (fun c hc => by simp [h' c hc])

lemma mapCo_append (a b : DF) (n : String) (co : Cell → Cell) :
    mapCo (a ++ b) n co = mapCo a n co ++ mapCo b n co := by
  simp [mapCo]

/-- Value of one successful `fixColumn` stage: coerce in place, then
append the default column when the label was absent. -/
def stageOut (df : DF) (n : String) (co : Cell → Cell) (d : Cell) : DF :=
  mapCo df n co ++
    (if countName df n = 0 then [⟨n, List.replicate (nrows df) d⟩] else [])

lemma fixColumn_eq_of_le_one (df : DF) (n : String) (co : Cell → Cell) (d : Cell)
    (h : countName df n ≤ 1) :
    fixColumn df n co d = some (stageOut df n co d) := by
  unfold fixColumn stageOut
  rcases Nat.le_one_iff_eq_zero_or_eq_one.1 h with h0 | h1
  · rw [if_pos h0, if_pos h0, mapCo_of_countName_zero _ _ _ h0]
  · rw [if_neg (by omega), if_pos h1, if_neg (by omega), List.append_nil]
    rfl

lemma fixColumn_eq_none (df : DF) (n : String) (co : Cell → Cell) (d : Cell)
    (h : 2 ≤ countName df n) : fixColumn df n co d = none := by
  unfold fixColumn
  rw [if_neg (by omega), if_neg (by omega)]

lemma countName_stageOut_ne (df : DF) (n : String) (co : Cell → Cell) (d : Cell)
    (m : String) (h : ¬m = n) :
    countName (stageOut df n co d) m = countName df m := by
  unfold stageOut
  rw [countName_append, countName_mapCo]
  split
  · have hnm : ¬n = m := fun hh => h hh.symm
    simp [countName_cons, countName_nil, hnm]
  · simp [countName_nil]

lemma nrows_stageOut (df : DF) (n : String) (co : Cell → Cell) (d : Cell) :
    nrows (stageOut df n co d) = nrows df := by
  unfold stageOut
  split
  · rw [nrows_append_single _ _ (by simp [nrows_mapCo]), nrows_mapCo]
  · rw [List.append_nil, nrows_mapCo]

lemma mapCo_singleton_ne (n m : String) (l : List Cell) (co : Cell → Cell)
    (h : ¬n = m) : mapCo [⟨n, l⟩] m co = [⟨n, l⟩] := by
  simp [mapCo, h]

/-- The composite of the three in-place coercions over the renamed
frame acts columnwise as `stdColumn`. -/
lemma stdColumn_pointwise (c : Col) :
    (fun c : Col => if c.name = "Expenses" then ⟨c.name, c.cells.map coerceNum⟩ else c)
      ((fun c : Col => if c.name = "Revenue" then ⟨c.name, c.cells.map coerceNum⟩ else c)
        ((fun c : Col => if c.name = "Date" then ⟨c.name, c.cells.map coerceDate⟩ else c)
          (⟨classify c.name, c.cells⟩ : Col))) = stdColumn c := by
  have hdr : ("Date" : String) ≠ "Revenue" := by decide
  have hde : ("Date" : String) ≠ "Expenses" := by decide
  have hre : ("Revenue" : String) ≠ "Expenses" := by decide
  by_cases h1 : classify c.name = "Date"
  · simp [stdColumn, h1, hdr, hde]
  · by_cases h2 : classify c.name = "Revenue"
    · simp [stdColumn, h1, h2, hre]
    · by_cases h3 : classify c.name = "Expenses"
      · simp [stdColumn, h1, h2, h3]
      · simp [stdColumn, h1, h2, h3]

lemma mapCo_mapCo_mapCo_renameCols (df : DF) :
    mapCo (mapCo (mapCo (renameCols df) "Date" coerceDate) "Revenue" coerceNum)
      "Expenses" coerceNum = df.map stdColumn := by
  unfold mapCo renameCols
  rw [List.map_map, List.map_map, List.map_map]
  apply List.map_congr_left
  intro c hc
  simp only [Function.comp_apply]
  exact stdColumn_pointwise c

lemma mapCo_defaultCol (df : DF) (n : String) (d : Cell) (m : String)
    (co : Cell → Cell) (h : ¬n = m) :
    mapCo (defaultCol df n d) m co = defaultCol df n d := by
  unfold defaultCol
  split
  · exact mapCo_singleton_ne _ _ _ _ h
  · rfl

lemma stageOut_eq (df : DF) (n : String) (co : Cell → Cell) (d : Cell)
    (k r : Nat) (hc : countName df n = k) (hr : nrows df = r) :
    stageOut df n co d =
      mapCo df n co ++ (if k = 0 then [⟨n, List.replicate r d⟩] else []) := by
  unfold stageOut
  rw [hc, hr]

/-- The Standardizer succeeds with the closed-form result whenever no
canonical name is doubly targeted. -/
lemma std_eq_of_canonOk (df : DF) (h : CanonOk df) :
    _standardize_dataframe df = some (stdResult df) := by
  obtain ⟨hD, hR, hE⟩ := h
  have hDr := countName_renameCols df "Date"
  have hRr := countName_renameCols df "Revenue"
  have hEr := countName_renameCols df "Expenses"
  have nA : nrows (renameCols df) = nrows df := nrows_renameCols df
  have e1 : stageOut (renameCols df) "Date" coerceDate Cell.natMarker =
      mapCo (renameCols df) "Date" coerceDate ++ defaultCol df "Date" Cell.natMarker :=
    stageOut_eq _ _ _ _ _ _ hDr nA
  have c2 : countName (stageOut (renameCols df) "Date" coerceDate Cell.natMarker)
      "Revenue" = classifiedCount df "Revenue" := by
    rw [countName_stageOut_ne _ _ _ _ _ (by decide), hRr]
  have n2 : nrows (stageOut (renameCols df) "Date" coerceDate Cell.natMarker) =
      nrows df := by
    rw [nrows_stageOut, nA]
  have e2 : stageOut (stageOut (renameCols df) "Date" coerceDate Cell.natMarker)
      "Revenue" coerceNum (Cell.num 0) =
      mapCo (stageOut (renameCols df) "Date" coerceDate Cell.natMarker)
        "Revenue" coerceNum ++ defaultCol df "Revenue" (Cell.num 0) :=
    stageOut_eq _ _ _ _ _ _ c2 n2
  have c3 : countName (stageOut (stageOut (renameCols df) "Date" coerceDate
      Cell.natMarker) "Revenue" coerceNum (Cell.num 0)) "Expenses" =
      classifiedCount df "Expenses" := by
    rw [countName_stageOut_ne _ _ _ _ _ (by decide),
      countName_stageOut_ne _ _ _ _ _ (by decide), hEr]
  have n3 : nrows (stageOut (stageOut (renameCols df) "Date" coerceDate
      Cell.natMarker) "Revenue" coerceNum (Cell.num 0)) = nrows df := by
    rw [nrows_stageOut, nrows_stageOut, nA]
  have e3 : stageOut (stageOut (stageOut (renameCols df) "Date" coerceDate
      Cell.natMarker) "Revenue" coerceNum (Cell.num 0)) "Expenses" coerceNum
      (Cell.num 0) = stdResult df := by
    rw [stageOut_eq _ _ _ _ _ _ c3 n3, e2, mapCo_append,
      mapCo_defaultCol _ _ _ _ _ (by decide), e1, mapCo_append,
      mapCo_defaultCol _ _ _ _ _ (by decide), mapCo_append,
      mapCo_defaultCol _ _ _ _ _ (by decide), mapCo_mapCo_mapCo_renameCols]
    rfl
  have s1 := fixColumn_eq_of_le_one (renameCols df) "Date" coerceDate
    Cell.natMarker (by omega)
  have s2 := fixColumn_eq_of_le_one _ "Revenue" coerceNum (Cell.num 0)
    (by rw [c2]; omega)
  have s3 := fixColumn_eq_of_le_one _ "Expenses" coerceNum (Cell.num 0)
    (by rw [c3]; omega)
  unfold _standardize_dataframe
  rw [s1, Option.some_bind, s2, Option.some_bind, s3, e3]

/-- With some canonical name doubly targeted, the Standardizer's
coercion of that column raises: no output is produced. -/
lemma std_eq_none_of_not_canonOk (df : DF) (h : ¬CanonOk df) :
    _standardize_dataframe df = none := by
  have hDr := countName_renameCols df "Date"
  have hRr := countName_renameCols df "Revenue"
  have hEr := countName_renameCols df "Expenses"
  unfold _standardize_dataframe
  by_cases hD : classifiedCount df "Date" ≤ 1
  · rw [fixColumn_eq_of_le_one _ _ _ _ (by omega), Option.some_bind]
    have c2 : countName (stageOut (renameCols df) "Date" coerceDate Cell.natMarker)
        "Revenue" = classifiedCount df "Revenue" := by
      rw [countName_stageOut_ne _ _ _ _ _ (by decide), hRr]
    by_cases hR : classifiedCount df "Revenue" ≤ 1
    · rw [fixColumn_eq_of_le_one _ _ _ _ (by omega), Option.some_bind]
      have c3 : countName (stageOut (stageOut (renameCols df) "Date" coerceDate
          Cell.natMarker) "Revenue" coerceNum (Cell.num 0)) "Expenses" =
          classifiedCount df "Expenses" := by
        rw [countName_stageOut_ne _ _ _ _ _ (by decide),
          countName_stageOut_ne _ _ _ _ _ (by decide), hEr]
      have hE : ¬classifiedCount df "Expenses" ≤ 1 := by
        intro hE
        exact h ⟨hD, hR, hE⟩
      rw [fixColumn_eq_none _ _ _ _ (by omega)]
    · rw [fixColumn_eq_none _ _ _ _ (by omega)]
      rfl
  · rw [fixColumn_eq_none _ _ _ _ (by omega)]
    rfl

/-- Full behaviour of the Standardizer: it succeeds exactly on inputs
with no doubly-targeted canonical name, and then returns the closed
form `stdResult`. -/
lemma std_eq_some_iff (df out : DF) :
    _standardize_dataframe df = some out ↔ CanonOk df ∧ out = stdResult df := by
  constructor
  · intro h
    by_cases hc : CanonOk df
    · rw [std_eq_of_canonOk df hc] at h
      exact ⟨hc, (Option.some_inj.1 h).symm⟩
    · rw [std_eq_none_of_not_canonOk df hc] at h
      cases h
  · rintro ⟨hc, rfl⟩
    exact std_eq_of_canonOk df hc

/-! ### Structural facts about `stdResult` -/

lemma stdColumn_name (c : Col) : (stdColumn c).name = classify c.name := by
  unfold stdColumn
  by_cases h1 : classify c.name = "Date"
  · simp [h1]
  · by_cases h2 : classify c.name = "Revenue"
    · simp [h1, h2]
    · by_cases h3 : classify c.name = "Expenses"
      · simp [h1, h2, h3]
      · simp [h1, h2, h3]

lemma stdColumn_length (c : Col) : (stdColumn c).cells.length = c.cells.length := by
  unfold stdColumn
  by_cases h1 : classify c.name = "Date"
  · simp [h1]
  · by_cases h2 : classify c.name = "Revenue"
    · simp [h1, h2]
    · by_cases h3 : classify c.name = "Expenses"
      · simp [h1, h2, h3]
      · simp [h1, h2, h3]

lemma countName_map_stdColumn (df : DF) (n : String) :
    countName (df.map stdColumn) n = classifiedCount df n := by
  induction df with
  | nil => rfl
  | cons c t ih =>
    rw [List.map_cons, countName_cons, classifiedCount_cons, ih, stdColumn_name]

lemma countName_defaultCol_self (df : DF) (n : String) (d : Cell) :
    countName (defaultCol df n d) n =
      if classifiedCount df n = 0 then 1 else 0 := by
  unfold defaultCol
  split
  · next h => simp [h, countName_cons, countName_nil]
  · next h => simp [h, countName_nil]

lemma countName_defaultCol_ne (df : DF) (n : String) (d : Cell) (m : String)
    (h : ¬n = m) : countName (defaultCol df n d) m = 0 := by
  unfold defaultCol
  split
  · simp [countName_cons, countName_nil, h]
  · rfl

lemma nrows_stdResult (df : DF) : nrows (stdResult df) = nrows df := by
  cases df with
  | nil => rfl
  | cons c t =>
    have : stdResult (c :: t) =
        stdColumn c :: (t.map stdColumn ++ defaultCol (c :: t) "Date" Cell.natMarker ++
          defaultCol (c :: t) "Revenue" (Cell.num 0) ++
          defaultCol (c :: t) "Expenses" (Cell.num 0)) := by
      simp [stdResult]
    rw [this]
    show (stdColumn c).cells.length = c.cells.length
    exact stdColumn_length c

/-- The three canonical columns each occur exactly once in a successful
output. -/
lemma countName_stdResult_canon (df : DF) (h : CanonOk df) :
    countName (stdResult df) "Date" = 1 ∧
    countName (stdResult df) "Revenue" = 1 ∧
    countName (stdResult df) "Expenses" = 1 := by
  obtain ⟨hD, hR, hE⟩ := h
  unfold stdResult
  have r1 := countName_defaultCol_ne df "Revenue" (Cell.num 0) "Date" (by decide)
  have r2 := countName_defaultCol_ne df "Expenses" (Cell.num 0) "Date" (by decide)
  have r3 := countName_defaultCol_ne df "Date" Cell.natMarker "Revenue" (by decide)
  have r4 := countName_defaultCol_ne df "Expenses" (Cell.num 0) "Revenue" (by decide)
  have r5 := countName_defaultCol_ne df "Date" Cell.natMarker "Expenses" (by decide)
  have r6 := countName_defaultCol_ne df "Revenue" (Cell.num 0) "Expenses" (by decide)
  simp only [countName_append, countName_map_stdColumn, countName_defaultCol_self,
    r1, r2, r3, r4, r5, r6]
  refine ⟨?_, ?_, ?_⟩ <;> split <;> omega

/-! ### Coercion shapes and idempotence -/

lemma coerceNum_shape (x : Cell) : ∃ v, coerceNum x = Cell.num v := by
  unfold coerceNum
  cases parseNumCell x with
  | none => exact ⟨0, rfl⟩
  | some v => exact ⟨v, rfl⟩

lemma coerceDate_shape (x : Cell) :
    (∃ d, coerceDate x = Cell.date d) ∨ coerceDate x = Cell.natMarker := by
  unfold coerceDate
  cases parseDateCell x with
  | none => exact Or.inr rfl
  | some d => exact Or.inl ⟨d, rfl⟩

lemma coerceNum_of_parse_fail (x : Cell) (h : parseNumCell x = none) :
    coerceNum x = Cell.num 0 := by
  unfold coerceNum
  rw [h]

lemma coerceDate_of_parse_fail (x : Cell) (h : parseDateCell x = none) :
    coerceDate x = Cell.natMarker := by
  unfold coerceDate
  rw [h]

lemma coerceNum_idem (x : Cell) : coerceNum (coerceNum x) = coerceNum x := by
  unfold coerceNum
  cases h : parseNumCell x with
  | none => rfl
  | some v => rfl

lemma coerceDate_idem (x : Cell) : coerceDate (coerceDate x) = coerceDate x := by
  unfold coerceDate
  cases h : parseDateCell x with
  | none => rfl
  | some d => rfl

/-! ### Stability of the classification -/

lemma dropWhile_rdropWhile_dropWhile {α : Type} (w : α → Bool) (l : List α) :
    List.dropWhile w (List.rdropWhile w (List.dropWhile w l)) =
      List.rdropWhile w (List.dropWhile w l) := by
  rw [List.dropWhile_eq_self_iff]
  intro hl
  have hpre : List.rdropWhile w (List.dropWhile w l) <+: List.dropWhile w l :=
    List.rdropWhile_prefix w (List.dropWhile w l)
  have hlen : 0 < (List.dropWhile w l).length := lt_of_lt_of_le hl hpre.length_le
  have hnot := List.dropWhile_get_zero_not w l hlen
  have hg : (List.rdropWhile w (List.dropWhile w l)).get ⟨0, hl⟩ =
      (List.dropWhile w l).get ⟨0, hlen⟩ := by
    simp only [List.get_eq_getElem]
    exact hpre.getElem hl
  rw [hg]
  exact hnot

/-- Python `strip` is idempotent. -/
lemma strip_idem (s : String) : strip (strip s) = strip s := by
  unfold strip
  congr 1
  show List.rdropWhile Char.isWhitespace (List.dropWhile Char.isWhitespace
      (List.rdropWhile Char.isWhitespace (List.dropWhile Char.isWhitespace s.data))) =
    List.rdropWhile Char.isWhitespace (List.dropWhile Char.isWhitespace s.data)
  rw [dropWhile_rdropWhile_dropWhile]
  exact List.rdropWhile_idempotent _ _

lemma classify_eq_date_of (s : String)
    (h : (containsSub (lower (strip s)) "date" || containsSub (lower (strip s)) "month" ||
      containsSub (lower (strip s)) "period") = true) : classify s = "Date" := by
  simp [classify, h]

lemma classify_eq_revenue_of (s : String)
    (h1 : (containsSub (lower (strip s)) "date" || containsSub (lower (strip s)) "month" ||
      containsSub (lower (strip s)) "period") = false)
    (h2 : (containsSub (lower (strip s)) "revenue" || containsSub (lower (strip s)) "sale" ||
      containsSub (lower (strip s)) "sales" ||
      containsSub (lower (strip s)) "amount") = true) : classify s = "Revenue" := by
  simp [classify, h1, h2]

lemma classify_eq_expenses_of (s : String)
    (h1 : (containsSub (lower (strip s)) "date" || containsSub (lower (strip s)) "month" ||
      containsSub (lower (strip s)) "period") = false)
    (h2 : (containsSub (lower (strip s)) "revenue" || containsSub (lower (strip s)) "sale" ||
      containsSub (lower (strip s)) "sales" ||
      containsSub (lower (strip s)) "amount") = false)
    (h3 : (containsSub (lower (strip s)) "expense" ||
      containsSub (lower (strip s)) "cost") = true) : classify s = "Expenses" := by
  simp [classify, h1, h2, h3]

lemma classify_else (s : String)
    (h1 : (containsSub (lower (strip s)) "date" || containsSub (lower (strip s)) "month" ||
      containsSub (lower (strip s)) "period") = false)
    (h2 : (containsSub (lower (strip s)) "revenue" || containsSub (lower (strip s)) "sale" ||
      containsSub (lower (strip s)) "sales" ||
      containsSub (lower (strip s)) "amount") = false)
    (h3 : (containsSub (lower (strip s)) "expense" ||
      containsSub (lower (strip s)) "cost") = false) : classify s = strip s := by
  simp [classify, h1, h2, h3]

/-- Classification is idempotent: canonical names and passthrough names
are both fixed points. -/
lemma classify_idem (s : String) : classify (classify s) = classify s := by
  by_cases b1 : (containsSub (lower (strip s)) "date" ||
      containsSub (lower (strip s)) "month" ||
      containsSub (lower (strip s)) "period") = true
  · rw [classify_eq_date_of s b1]
    decide
  · have h1 := Bool.eq_false_iff.2 b1
    by_cases b2 : (containsSub (lower (strip s)) "revenue" ||
        containsSub (lower (strip s)) "sale" || containsSub (lower (strip s)) "sales" ||
        containsSub (lower (strip s)) "amount") = true
    · rw [classify_eq_revenue_of s h1 b2]
      decide
    · have h2 := Bool.eq_false_iff.2 b2
      by_cases b3 : (containsSub (lower (strip s)) "expense" ||
          containsSub (lower (strip s)) "cost") = true
      · rw [classify_eq_expenses_of s h1 h2 b3]
        decide
      · have h3 := Bool.eq_false_iff.2 b3
        rw [classify_else s h1 h2 h3]
        have e : strip (strip s) = strip s := strip_idem s
        have hp := classify_else (strip s) (by rw [e]; exact h1) (by rw [e]; exact h2)
          (by rw [e]; exact h3)
        rw [hp, e]

lemma classify_date_lit : classify "Date" = "Date" := by decide

lemma classify_revenue_lit : classify "Revenue" = "Revenue" := by decide

lemma classify_expenses_lit : classify "Expenses" = "Expenses" := by decide

lemma stdColumn_date_col (l : List Cell) :
    stdColumn ⟨"Date", l⟩ = ⟨"Date", l.map coerceDate⟩ := by
  simp [stdColumn, classify_date_lit]

lemma stdColumn_revenue_col (l : List Cell) :
    stdColumn ⟨"Revenue", l⟩ = ⟨"Revenue", l.map coerceNum⟩ := by
  simp [stdColumn, classify_revenue_lit]

lemma stdColumn_expenses_col (l : List Cell) :
    stdColumn ⟨"Expenses", l⟩ = ⟨"Expenses", l.map coerceNum⟩ := by
  simp [stdColumn, classify_expenses_lit]

lemma stdColumn_idem (c : Col) : stdColumn (stdColumn c) = stdColumn c := by
  by_cases h1 : classify c.name = "Date"
  · have e : stdColumn c = ⟨"Date", c.cells.map coerceDate⟩ := by
      unfold stdColumn
      rw [if_pos h1]
    rw [e, stdColumn_date_col, List.map_map]
    congr 1
    exact List.map_congr_left fun x _ => coerceDate_idem x
  · by_cases h2 : classify c.name = "Revenue"
    · have e : stdColumn c = ⟨"Revenue", c.cells.map coerceNum⟩ := by
        unfold stdColumn
        rw [if_neg h1, if_pos h2]
      rw [e, stdColumn_revenue_col, List.map_map]
      congr 1
      exact List.map_congr_left fun x _ => coerceNum_idem x
    · by_cases h3 : classify c.name = "Expenses"
      · have e : stdColumn c = ⟨"Expenses", c.cells.map coerceNum⟩ := by
          unfold stdColumn
          rw [if_neg h1, if_neg h2, if_pos h3]
        rw [e, stdColumn_expenses_col, List.map_map]
        congr 1
        exact List.map_congr_left fun x _ => coerceNum_idem x
      · have e : stdColumn c = ⟨classify c.name, c.cells⟩ := by
          unfold stdColumn
          rw [if_neg h1, if_neg h2, if_neg h3]
        rw [e]
        have hi := classify_idem c.name
        simp [stdColumn, hi, h1, h2, h3]

/-- Every column of a successful Standardizer output is a fixed point
of both the classification and the per-column rewrite. -/
lemma stdResult_mem_fixed (df : DF) (c : Col) (hc : c ∈ stdResult df) :
    stdColumn c = c ∧ classify c.name = c.name := by
  unfold stdResult at hc
  rcases List.mem_append.1 hc with hc' | hcE
  · rcases List.mem_append.1 hc' with hc'' | hcR
    · rcases List.mem_append.1 hc'' with hcM | hcD
      · obtain ⟨c₀, _, rfl⟩ := List.mem_map.1 hcM
        refine ⟨stdColumn_idem c₀, ?_⟩
        rw [stdColumn_name]
        exact classify_idem c₀.name
      · unfold defaultCol at hcD
        split at hcD
        · rw [List.mem_singleton.1 hcD]
          refine ⟨?_, classify_date_lit⟩
          rw [stdColumn_date_col, List.map_replicate]
          rfl
        · cases hcD
    · unfold defaultCol at hcR
      split at hcR
      · rw [List.mem_singleton.1 hcR]
        refine ⟨?_, classify_revenue_lit⟩
        rw [stdColumn_revenue_col, List.map_replicate]
        rfl
      · cases hcR
  · unfold defaultCol at hcE
    split at hcE
    · rw [List.mem_singleton.1 hcE]
      refine ⟨?_, classify_expenses_lit⟩
      rw [stdColumn_expenses_col, List.map_replicate]
      rfl
    · cases hcE

lemma classifiedCount_eq_countName_of_fixed (out : DF)
    (hfix : ∀ c ∈ out, classify c.name = c.name) (n : String) :
    classifiedCount out n = countName out n := by
  unfold classifiedCount countName
  congr 1
  apply List.filter_congr
  intro c hc
  rw [hfix c hc]

lemma stdResult_eq_self (out : DF)
    (hfix : ∀ c ∈ out, stdColumn c = c)
    (hD : classifiedCount out "Date" ≠ 0)
    (hR : classifiedCount out "Revenue" ≠ 0)
    (hE : classifiedCount out "Expenses" ≠ 0) :
    stdResult out = out := by
  unfold stdResult defaultCol
  rw [if_neg hD, if_neg hR, if_neg hE, List.append_nil, List.append_nil,
    List.append_nil]
  conv_rhs => rw [← List.map_id out]
  exact List.map_congr_left fun c hc => hfix c hc

lemma find?_congr_mem {α : Type} (p q : α → Bool) (l : List α)
    (h : ∀ a ∈ l, p a = q a) : l.find? p = l.find? q := by
  induction l with
  | nil => rfl
  | cons a t ih =>
    have ht : t.find? p = t.find? q := ih (fun a ha => h a (List.mem_cons_of_mem _ ha))
    rw [List.find?_cons, List.find?_cons, h a (List.mem_cons_self a t), ht]

lemma countName_pos_of_mem (df : DF) (c : Col) (n : String) (hc : c ∈ df)
    (h : c.name = n) : 0 < countName df n := by
  unfold countName
  exact List.length_pos_of_mem (List.mem_filter.2 ⟨hc, by simp [h]⟩)

lemma classifiedCount_pos_of_mem (df : DF) (c : Col) (n : String) (hc : c ∈ df)
    (h : classify c.name = n) : 0 < classifiedCount df n := by
  unfold classifiedCount
  exact List.length_pos_of_mem (List.mem_filter.2 ⟨hc, by simp [h]⟩)

lemma find?_map_stdColumn (df : DF) (n : String) :
    (df.map stdColumn).find? (fun c => c.name = n) =
      (df.find? (fun c => classify c.name = n)).map stdColumn := by
  rw [List.find?_map]
  congr 1
  apply find?_congr_mem
  intro c _
  simp [Function.comp, stdColumn_name]

lemma find?_map_stdColumn_none (df : DF) (n : String)
    (h0 : classifiedCount df n = 0) :
    (df.map stdColumn).find? (fun c => c.name = n) = none := by
  rw [find?_map_stdColumn]
  have : df.find? (fun c => classify c.name = n) = none := by
    rw [List.find?_eq_none]
    intro c hc hp
    have := classifiedCount_pos_of_mem df c n hc (by simpa using hp)
    omega
  rw [this]
  rfl

lemma find?_defaultCol_ne (df : DF) (m : String) (d : Cell) (n : String)
    (hne : ¬m = n) :
    (defaultCol df m d).find? (fun c => c.name = n) = none := by
  unfold defaultCol
  split <;> simp [hne]

lemma find?_defaultCol_self (df : DF) (n : String) (d : Cell)
    (h0 : classifiedCount df n = 0) :
    (defaultCol df n d).find? (fun c => c.name = n) =
      some ⟨n, List.replicate (nrows df) d⟩ := by
  unfold defaultCol
  rw [if_pos h0]
  simp

lemma getCells_stdResult_date_absent (df : DF)
    (h0 : classifiedCount df "Date" = 0) :
    getCells (stdResult df) "Date" = List.replicate (nrows df) Cell.natMarker := by
  unfold getCells stdResult
  rw [List.find?_append, List.find?_append, List.find?_append,
    find?_map_stdColumn_none df "Date" h0, find?_defaultCol_self df "Date" _ h0]
  rfl

lemma getCells_stdResult_revenue_absent (df : DF)
    (h0 : classifiedCount df "Revenue" = 0) :
    getCells (stdResult df) "Revenue" = List.replicate (nrows df) (Cell.num 0) := by
  unfold getCells stdResult
  rw [List.find?_append, List.find?_append, List.find?_append,
    find?_map_stdColumn_none df "Revenue" h0,
    find?_defaultCol_ne df "Date" _ "Revenue" (by decide),
    find?_defaultCol_self df "Revenue" _ h0]
  rfl

lemma getCells_stdResult_expenses_absent (df : DF)
    (h0 : classifiedCount df "Expenses" = 0) :
    getCells (stdResult df) "Expenses" = List.replicate (nrows df) (Cell.num 0) := by
  unfold getCells stdResult
  rw [List.find?_append, List.find?_append, List.find?_append,
    find?_map_stdColumn_none df "Expenses" h0,
    find?_defaultCol_ne df "Date" _ "Expenses" (by decide),
    find?_defaultCol_ne df "Revenue" _ "Expenses" (by decide),
    find?_defaultCol_self df "Expenses" _ h0]
  rfl

lemma getCells_stdResult_classified (df : DF) (n : String) (co : Cell → Cell)
    (hco : ∀ c : Col, classify c.name = n → stdColumn c = ⟨n, c.cells.map co⟩)
    (c₀ : Col) (hc₀ : df.find? (fun c => classify c.name = n) = some c₀) :
    getCells (stdResult df) n = c₀.cells.map co := by
  have hcls : classify c₀.name = n := by simpa using List.find?_some hc₀
  unfold getCells stdResult
  rw [List.find?_append, List.find?_append, List.find?_append,
    find?_map_stdColumn, hc₀]
  have e : Option.map stdColumn (some c₀) = some (stdColumn c₀) := rfl
  rw [e, hco c₀ hcls]
  rfl

lemma classify_cases (s : String) :
    classify s = "Date" ∨ classify s = "Revenue" ∨ classify s = "Expenses" ∨
      classify s = strip s := by
  by_cases b1 : (containsSub (lower (strip s)) "date" ||
      containsSub (lower (strip s)) "month" ||
      containsSub (lower (strip s)) "period") = true
  · exact Or.inl (classify_eq_date_of s b1)
  · have h1 := Bool.eq_false_iff.2 b1
    by_cases b2 : (containsSub (lower (strip s)) "revenue" ||
        containsSub (lower (strip s)) "sale" || containsSub (lower (strip s)) "sales" ||
        containsSub (lower (strip s)) "amount") = true
    · exact Or.inr (Or.inl (classify_eq_revenue_of s h1 b2))
    · have h2 := Bool.eq_false_iff.2 b2
      by_cases b3 : (containsSub (lower (strip s)) "expense" ||
          containsSub (lower (strip s)) "cost") = true
      · exact Or.inr (Or.inr (Or.inl (classify_eq_expenses_of s h1 h2 b3)))
      · have h3 := Bool.eq_false_iff.2 b3
        exact Or.inr (Or.inr (Or.inr (classify_else s h1 h2 h3)))

/-- Cells of a `Revenue` or `Expenses` column of a standardized output
are all numeric. -/
lemma stdResult_numeric_cells (df : DF) (c : Col) (hc : c ∈ stdResult df)
    (hn : c.name = "Revenue" ∨ c.name = "Expenses") :
    ∀ x ∈ c.cells, ∃ v, x = Cell.num v := by
  unfold stdResult at hc
  rcases List.mem_append.1 hc with hc' | hcE
  · rcases List.mem_append.1 hc' with hc'' | hcR
    · rcases List.mem_append.1 hc'' with hcM | hcD
      · obtain ⟨c₀, _, rfl⟩ := List.mem_map.1 hcM
        unfold stdColumn at hn ⊢
        by_cases g1 : classify c₀.name = "Date"
        · rw [if_pos g1] at hn
          rcases hn with hn | hn <;> exact absurd hn (by simp)
        · by_cases g2 : classify c₀.name = "Revenue"
          · rw [if_neg g1, if_pos g2]
            intro x hx
            obtain ⟨y, _, rfl⟩ := List.mem_map.1 hx
            obtain ⟨v, hv⟩ := coerceNum_shape y
            exact ⟨v, hv⟩
          · by_cases g3 : classify c₀.name = "Expenses"
            · rw [if_neg g1, if_neg g2, if_pos g3]
              intro x hx
              obtain ⟨y, _, rfl⟩ := List.mem_map.1 hx
              obtain ⟨v, hv⟩ := coerceNum_shape y
              exact ⟨v, hv⟩
            · rw [if_neg g1, if_neg g2, if_neg g3] at hn
              rcases hn with hn | hn
              · exact absurd hn g2
              · exact absurd hn g3
      · unfold defaultCol at hcD
        split at hcD
        · rw [List.mem_singleton.1 hcD] at hn
          rcases hn with hn | hn <;> exact absurd hn (by simp)
        · cases hcD
    · unfold defaultCol at hcR
      split at hcR
      · rw [List.mem_singleton.1 hcR]
        intro x hx
        exact ⟨0, List.eq_of_mem_replicate hx⟩
      · cases hcR
  · unfold defaultCol at hcE
    split at hcE
    · rw [List.mem_singleton.1 hcE]
      intro x hx
      exact ⟨0, List.eq_of_mem_replicate hx⟩
    · cases hcE

/-- Cells of the `Date` column of a standardized output are dates or
the null-date marker. -/
lemma stdResult_date_cells (df : DF) (c : Col) (hc : c ∈ stdResult df)
    (hn : c.name = "Date") :
    ∀ x ∈ c.cells, (∃ d, x = Cell.date d) ∨ x = Cell.natMarker := by
  unfold stdResult at hc
  rcases List.mem_append.1 hc with hc' | hcE
  · rcases List.mem_append.1 hc' with hc'' | hcR
    · rcases List.mem_append.1 hc'' with hcM | hcD
      · obtain ⟨c₀, _, rfl⟩ := List.mem_map.1 hcM
        unfold stdColumn at hn ⊢
        by_cases g1 : classify c₀.name = "Date"
        · rw [if_pos g1]
          intro x hx
          obtain ⟨y, _, rfl⟩ := List.mem_map.1 hx
          rcases coerceDate_shape y with ⟨d, hd⟩ | hd
          · exact Or.inl ⟨d, hd⟩
          · exact Or.inr hd
        · by_cases g2 : classify c₀.name = "Revenue"
          · rw [if_neg g1, if_pos g2] at hn
            exact absurd hn (by simp)
          · by_cases g3 : classify c₀.name = "Expenses"
            · rw [if_neg g1, if_neg g2, if_pos g3] at hn
              exact absurd hn (by simp)
            · rw [if_neg g1, if_neg g2, if_neg g3] at hn
              exact absurd hn g1
      · unfold defaultCol at hcD
        split at hcD
        · rw [List.mem_singleton.1 hcD]
          intro x hx
          exact Or.inr (List.eq_of_mem_replicate hx)
        · cases hcD
    · unfold defaultCol at hcR
      split at hcR
      · rw [List.mem_singleton.1 hcR] at hn
        exact absurd hn (by simp)
      · cases hcR
  · unfold defaultCol at hcE
    split at hcE
    · rw [List.mem_singleton.1 hcE] at hn
      exact absurd hn (by simp)
    · cases hcE

lemma length_defaultCol (df : DF) (n : String) (d : Cell) :
    (defaultCol df n d).length = if classifiedCount df n = 0 then 1 else 0 := by
  unfold defaultCol
  split <;> rfl

/-- Whether a column is an unclassified passthrough. -/
def isPass (c : Col) : Bool :=
  !(classify c.name = "Date" || classify c.name = "Revenue" ||
    classify c.name = "Expenses")

/-- Every input column classifies to exactly one of the four buckets. -/
lemma length_partition (df : DF) :
    classifiedCount df "Date" + classifiedCount df "Revenue" +
      classifiedCount df "Expenses" + (df.filter isPass).length = df.length := by
  induction df with
  | nil => rfl
  | cons c t ih =>
    rw [classifiedCount_cons, classifiedCount_cons, classifiedCount_cons,
      List.filter_cons]
    by_cases h1 : classify c.name = "Date"
    · have nR : ¬classify c.name = "Revenue" := by rw [h1]; decide
      have nE : ¬classify c.name = "Expenses" := by rw [h1]; decide
      have hp : isPass c = false := by simp [isPass, h1]
      rw [if_pos h1, if_neg nR, if_neg nE, hp]
      simp only [Bool.false_eq_true, if_false, List.length_cons]
      omega
    · by_cases h2 : classify c.name = "Revenue"
      · have nE : ¬classify c.name = "Expenses" := by rw [h2]; decide
        have hp : isPass c = false := by simp [isPass, h2]
        rw [if_neg h1, if_pos h2, if_neg nE, hp]
        simp only [Bool.false_eq_true, if_false, List.length_cons]
        omega
      · by_cases h3 : classify c.name = "Expenses"
        · have hp : isPass c = false := by simp [isPass, h3]
          rw [if_neg h1, if_neg h2, if_pos h3, hp]
          simp only [Bool.false_eq_true, if_false, List.length_cons]
          omega
        · have hp : isPass c = true := by simp [isPass, h1, h2, h3]
          rw [if_neg h1, if_neg h2, if_neg h3, hp]
          simp only [if_true, List.length_cons]
          omega

/-- Unclassified input columns survive standardization unchanged, under
their trimmed name. -/
lemma stdResult_passthrough_mem (df : DF) (c : Col) (hc : c ∈ df)
    (hp : isPass c = true) : (⟨strip c.name, c.cells⟩ : Col) ∈ stdResult df := by
  have h1 : ¬classify c.name = "Date" := by
    intro he; simp [isPass, he] at hp
  have h2 : ¬classify c.name = "Revenue" := by
    intro he; simp [isPass, he] at hp
  have h3 : ¬classify c.name = "Expenses" := by
    intro he; simp [isPass, he] at hp
  have hcs : classify c.name = strip c.name := by
    rcases classify_cases c.name with h | h | h | h
    · exact absurd h h1
    · exact absurd h h2
    · exact absurd h h3
    · exact h
  have e : stdColumn c = ⟨strip c.name, c.cells⟩ := by
    unfold stdColumn
    rw [if_neg h1, if_neg h2, if_neg h3, hcs]
  rw [← e]
  unfold stdResult
  exact List.mem_append.2 (Or.inl (List.mem_append.2 (Or.inl
    (List.mem_append.2 (Or.inl (List.mem_map_of_mem _ hc))))))

lemma containsAny_two (s a b : String) :
    containsAny s [a, b] = (containsSub s a || containsSub s b) := by
  simp [containsAny, Bool.or_assoc]

lemma containsAny_three (s a b c : String) :
    containsAny s [a, b, c] =
      (containsSub s a || containsSub s b || containsSub s c) := by
  simp [containsAny, Bool.or_assoc]

lemma containsAny_four (s a b c d : String) :
    containsAny s [a, b, c, d] =
      (containsSub s a || containsSub s b || containsSub s c || containsSub s d) := by
  simp [containsAny, Bool.or_assoc]

/-- C2: every column name is trimmed, lower-cased, and classified by
first-match precedence: a `date`/`month`/`period` substring gives `Date`;
otherwise a `revenue`/`sale`/`sales`/`amount` substring gives `Revenue`;
otherwise an `expense`/`cost` substring gives `Expenses`; otherwise the
trimmed original name is kept.  Earlier rules win over later ones. -/
theorem claim_C2_classification (col : String) :
    (containsAny (lower (strip col)) ["date", "month", "period"] = true →
      classify col = "Date") ∧
    (containsAny (lower (strip col)) ["date", "month", "period"] = false →
      containsAny (lower (strip col)) ["revenue", "sale", "sales", "amount"] = true →
      classify col = "Revenue") ∧
    (containsAny (lower (strip col)) ["date", "month", "period"] = false →
      containsAny (lower (strip col)) ["revenue", "sale", "sales", "amount"] = false →
      containsAny (lower (strip col)) ["expense", "cost"] = true →
      classify col = "Expenses") ∧
    (containsAny (lower (strip col)) ["date", "month", "period"] = false →
      containsAny (lower (strip col)) ["revenue", "sale", "sales", "amount"] = false →
      containsAny (lower (strip col)) ["expense", "cost"] = false →
      classify col = strip col) := by
  refine ⟨?_, ?_, ?_, ?_⟩
  · intro h
    rw [containsAny_three] at h
    exact classify_eq_date_of col h
  · intro h1 h2
    rw [containsAny_three] at h1
    rw [containsAny_four] at h2
    exact classify_eq_revenue_of col h1 h2
  · intro h1 h2 h3
    rw [containsAny_three] at h1
    rw [containsAny_four] at h2
    rw [containsAny_two] at h3
    exact classify_eq_expenses_of col h1 h2 h3
  · intro h1 h2 h3
    rw [containsAny_three] at h1
    rw [containsAny_four] at h2
    rw [containsAny_two] at h3
    exact classify_else col h1 h2 h3

/-- Witness for C2 at a name matching both the `Date` and `Revenue`
rules: the first rule wins. -/
theorem claim_C2_witness : classify " Sale Date " = "Date" :=
  (claim_C2_classification " Sale Date ").1 (by decide)

/-- C5: the Standardizer is idempotent — re-standardizing one of its own
outputs returns that output unchanged. -/
theorem claim_C5_idempotent (df out : DF)
    (h : _standardize_dataframe df = some out) :
    _standardize_dataframe out = some out := by
  obtain ⟨hok, rfl⟩ := (std_eq_some_iff df out).1 h
  have hfix := stdResult_mem_fixed df
  have hcc : ∀ n, classifiedCount (stdResult df) n = countName (stdResult df) n :=
    classifiedCount_eq_countName_of_fixed _ (fun c hc => (hfix c hc).2)
  obtain ⟨d1, r1, e1⟩ := countName_stdResult_canon df hok
  apply (std_eq_some_iff _ _).2
  refine ⟨⟨by rw [hcc]; omega, by rw [hcc]; omega, by rw [hcc]; omega⟩, ?_⟩
  exact (stdResult_eq_self (stdResult df) (fun c hc => (hfix c hc).1)
    (by rw [hcc]; omega) (by rw [hcc]; omega) (by rw [hcc]; omega)).symm

/-- C6 (amended) counterexample to the original claim: with two columns
both classifying to `Revenue`, the Standardizer raises instead of
returning a table. -/
theorem claim_C6_counterexample :
    _standardize_dataframe
      [⟨"Sales", [Cell.num 1]⟩, ⟨"Amount", [Cell.num 2]⟩] = none := by decide

/-- C6 (amended): the Standardizer is total — arbitrary names, arbitrary
cells, unparseable data and missing columns all degrade to defaults —
provided no canonical name is targeted by two or more input columns. -/
theorem claim_C6_total_unless_duplicate (df : DF) (h : CanonOk df) :
    (_standardize_dataframe df).isSome = true := by
  rw [std_eq_of_canonOk df h]
  rfl

/-- Witness for C6 on a messy single-column table. -/
theorem claim_C6_witness :
    (_standardize_dataframe [⟨" Cost center ", [Cell.str "abc", Cell.nan]⟩]).isSome
      = true :=
  claim_C6_total_unless_duplicate _ (by decide)

/-- C7 counterexample to last-matching-column-wins: with two columns
classifying to `Expenses`, no output is produced at all, so no column's
values are kept. -/
theorem claim_C7_counterexample :
    _standardize_dataframe
      [⟨"Expense", [Cell.num 1]⟩, ⟨"Cost", [Cell.num 2]⟩] = none := by decide

/-- C7 (amended): when two or more original columns map to the same
canonical name, the rename keeps both columns, the subsequent coercion
of the duplicated label fails, and the Standardizer produces no output
(the exception surfaces as a load failure). -/
theorem claim_C7_duplicate_fails (df : DF)
    (h : 2 ≤ classifiedCount df "Date" ∨ 2 ≤ classifiedCount df "Revenue" ∨
      2 ≤ classifiedCount df "Expenses") :
    _standardize_dataframe df = none := by
  apply std_eq_none_of_not_canonOk
  rintro ⟨hD, hR, hE⟩
  rcases h with h | h | h <;> omega

/-- Witness for C7 on two date-like columns. -/
theorem claim_C7_witness :
    _standardize_dataframe
      [⟨"Month", [Cell.str "Jan"]⟩, ⟨"Period", [Cell.str "Q1"]⟩] = none :=
  claim_C7_duplicate_fails _ (Or.inl (by decide))

/-- The column/typing invariant claim C1 asserts of a Standardizer run
on `df` producing `out`: the three canonical columns exist (exactly
once each), `Revenue`/`Expenses` hold only numbers, `Date` holds only
dates or the null-date marker, failed per-cell parses become the
defaults, absent canonical columns become whole default columns,
passthrough columns survive, and the output is never smaller than the
three canonical columns plus the passthroughs. -/
def C1Prop (df out : DF) : Prop :=
  countName out "Date" = 1 ∧ countName out "Revenue" = 1 ∧
  countName out "Expenses" = 1 ∧
  (∀ c ∈ out, (c.name = "Revenue" ∨ c.name = "Expenses") →
    ∀ x ∈ c.cells, ∃ v, x = Cell.num v) ∧
  (∀ c ∈ out, c.name = "Date" →
    ∀ x ∈ c.cells, (∃ d, x = Cell.date d) ∨ x = Cell.natMarker) ∧
  (∀ x : Cell, parseNumCell x = none → coerceNum x = Cell.num 0) ∧
  (∀ x : Cell, parseDateCell x = none → coerceDate x = Cell.natMarker) ∧
  (classifiedCount df "Date" = 0 →
    getCells out "Date" = List.replicate (nrows df) Cell.natMarker) ∧
  (classifiedCount df "Revenue" = 0 →
    getCells out "Revenue" = List.replicate (nrows df) (Cell.num 0)) ∧
  (classifiedCount df "Expenses" = 0 →
    getCells out "Expenses" = List.replicate (nrows df) (Cell.num 0)) ∧
  (∀ c ∈ df, isPass c = true → (⟨strip c.name, c.cells⟩ : Col) ∈ out) ∧
  (df.filter isPass).length + 3 ≤ out.length

/-- C1: every successful Standardizer output satisfies the full
column/typing invariant `C1Prop`. -/
theorem claim_C1_output_invariant (df out : DF)
    (h : _standardize_dataframe df = some out) : C1Prop df out := by
  obtain ⟨hok, rfl⟩ := (std_eq_some_iff df out).1 h
  obtain ⟨cd1, cr1, ce1⟩ := countName_stdResult_canon df hok
  refine ⟨cd1, cr1, ce1, ?_, ?_, ?_, ?_, ?_, ?_, ?_, ?_, ?_⟩
  · exact fun c hc hn => stdResult_numeric_cells df c hc hn
  · exact fun c hc hn => stdResult_date_cells df c hc hn
  · exact coerceNum_of_parse_fail
  · exact coerceDate_of_parse_fail
  · exact getCells_stdResult_date_absent df
  · exact getCells_stdResult_revenue_absent df
  · exact getCells_stdResult_expenses_absent df
  · exact fun c hc hp => stdResult_passthrough_mem df c hc hp
  · have lp := length_partition df
    have l1 : 1 ≤ classifiedCount df "Date" +
        (defaultCol df "Date" Cell.natMarker).length := by
      rw [length_defaultCol]
      split <;> omega
    have l2 : 1 ≤ classifiedCount df "Revenue" +
        (defaultCol df "Revenue" (Cell.num 0)).length := by
      rw [length_defaultCol]
      split <;> omega
    have l3 : 1 ≤ classifiedCount df "Expenses" +
        (defaultCol df "Expenses" (Cell.num 0)).length := by
      rw [length_defaultCol]
      split <;> omega
    have lo : (stdResult df).length = df.length +
        (defaultCol df "Date" Cell.natMarker).length +
        (defaultCol df "Revenue" (Cell.num 0)).length +
        (defaultCol df "Expenses" (Cell.num 0)).length := by
      unfold stdResult
      rw [List.length_append, List.length_append, List.length_append,
        List.length_map]
    omega

/-- Witness for C1 on a table with a date-like column, a revenue-like
column with one unparseable cell, a passthrough column, and no
expenses column. -/
theorem claim_C1_witness :
    C1Prop
      [⟨" Month", [Cell.str "x", Cell.str "2024-01-02"]⟩,
        ⟨"Sales", [Cell.str "abc", Cell.num 5]⟩,
        ⟨"Note", [Cell.str "n1", Cell.str "n2"]⟩]
      [⟨"Date", [Cell.natMarker, Cell.date 20240102]⟩,
        ⟨"Revenue", [Cell.num 0, Cell.num 5]⟩,
        ⟨"Note", [Cell.str "n1", Cell.str "n2"]⟩,
        ⟨"Expenses", [Cell.num 0, Cell.num 0]⟩] :=
  claim_C1_output_invariant _ _ (by decide)

/-- Witness for C5 on a one-column revenue table. -/
theorem claim_C5_witness :
    _standardize_dataframe
      [⟨"Revenue", [Cell.num 3]⟩, ⟨"Date", [Cell.natMarker]⟩,
        ⟨"Expenses", [Cell.num 0]⟩] =
      some [⟨"Revenue", [Cell.num 3]⟩, ⟨"Date", [Cell.natMarker]⟩,
        ⟨"Expenses", [Cell.num 0]⟩] :=
  claim_C5_idempotent [⟨"Sales", [Cell.num 3]⟩] _ (by decide)

/-- C10: the Standardizer preserves the input's row count, keeps the
input columns first and in order — rewriting only their labels and, for
canonical columns, their cells — and passes unclassified columns
through with their cell values untouched. -/
theorem claim_C10_frame (df out : DF)
    (h : _standardize_dataframe df = some out) :
    nrows out = nrows df ∧ out.take df.length = df.map stdColumn ∧
      (∀ c ∈ df, isPass c = true → (⟨strip c.name, c.cells⟩ : Col) ∈ out) ∧
      (∀ c : Col, isPass c = true → stdColumn c = ⟨strip c.name, c.cells⟩) := by
  obtain ⟨hok, rfl⟩ := (std_eq_some_iff df out).1 h
  refine ⟨nrows_stdResult df, ?_, ?_, ?_⟩
  · unfold stdResult
    rw [List.append_assoc, List.append_assoc,
      List.take_left' (List.length_map df stdColumn)]
  · exact fun c hc hp => stdResult_passthrough_mem df c hc hp
  · intro c hp
    have h1 : ¬classify c.name = "Date" := by
      intro he; simp [isPass, he] at hp
    have h2 : ¬classify c.name = "Revenue" := by
      intro he; simp [isPass, he] at hp
    have h3 : ¬classify c.name = "Expenses" := by
      intro he; simp [isPass, he] at hp
    have hcs : classify c.name = strip c.name := by
      rcases classify_cases c.name with hx | hx | hx | hx
      · exact absurd hx h1
      · exact absurd hx h2
      · exact absurd hx h3
      · exact hx
    unfold stdColumn
    rw [if_neg h1, if_neg h2, if_neg h3, hcs]

/-- Witness for C10 on a two-column table. -/
theorem claim_C10_witness :
    nrows [(⟨"Expenses", [Cell.num 50, Cell.num 75]⟩ : Col),
        ⟨"Tag", [Cell.str "a", Cell.str "b"]⟩, ⟨"Date", [Cell.natMarker, Cell.natMarker]⟩,
        ⟨"Revenue", [Cell.num 0, Cell.num 0]⟩] =
      nrows [(⟨"Cost", [Cell.num 50, Cell.num 75]⟩ : Col),
        ⟨"Tag", [Cell.str "a", Cell.str "b"]⟩] ∧
    ([(⟨"Expenses", [Cell.num 50, Cell.num 75]⟩ : Col),
        ⟨"Tag", [Cell.str "a", Cell.str "b"]⟩, ⟨"Date", [Cell.natMarker, Cell.natMarker]⟩,
        ⟨"Revenue", [Cell.num 0, Cell.num 0]⟩].take 2 =
      [(⟨"Cost", [Cell.num 50, Cell.num 75]⟩ : Col),
        ⟨"Tag", [Cell.str "a", Cell.str "b"]⟩].map stdColumn) ∧
    (∀ c ∈ [(⟨"Cost", [Cell.num 50, Cell.num 75]⟩ : Col),
        ⟨"Tag", [Cell.str "a", Cell.str "b"]⟩], isPass c = true →
      (⟨strip c.name, c.cells⟩ : Col) ∈
        [(⟨"Expenses", [Cell.num 50, Cell.num 75]⟩ : Col),
          ⟨"Tag", [Cell.str "a", Cell.str "b"]⟩,
          ⟨"Date", [Cell.natMarker, Cell.natMarker]⟩,
          ⟨"Revenue", [Cell.num 0, Cell.num 0]⟩]) ∧
    (∀ c : Col, isPass c = true → stdColumn c = ⟨strip c.name, c.cells⟩) :=
  claim_C10_frame
    [⟨"Cost", [Cell.num 50, Cell.num 75]⟩, ⟨"Tag", [Cell.str "a", Cell.str "b"]⟩]
    _ (by decide)

/-! ### Merger lemmas -/

lemma find?_map_name_preserving (df : DF) (f : Col → Col)
    (hf : ∀ c, (f c).name = c.name) (n : String) :
    (df.map f).find? (fun c => c.name = n) =
      (df.find? (fun c => c.name = n)).map f := by
  rw [List.find?_map]
  congr 1
  apply find?_congr_mem
  intro c _
  simp [Function.comp, hf]

lemma nrows_setScalar (df : DF) (n : String) (v : Cell) :
    nrows (setScalar df n v) = nrows df := by
  unfold setScalar
  split
  · apply nrows_map_of_length
    intro c
    by_cases h : c.name = n <;> simp [h]
  · cases df with
    | nil => simp [nrows]
    | cons c t => simp [nrows]

lemma Rect_setScalar (df : DF) (n : String) (v : Cell) (h : Rect df) :
    Rect (setScalar df n v) := by
  intro c hc
  rw [nrows_setScalar]
  unfold setScalar at hc
  split at hc
  · obtain ⟨c₀, hc₀, rfl⟩ := List.mem_map.1 hc
    by_cases hn : c₀.name = n
    · simp [hn, h c₀ hc₀]
    · simp [hn, h c₀ hc₀]
  · rcases List.mem_append.1 hc with hc | hc
    · exact h c hc
    · rw [List.mem_singleton.1 hc]
      simp

lemma setScalar_ne_nil (df : DF) (n : String) (v : Cell) :
    setScalar df n v ≠ [] := by
  unfold setScalar
  split
  · next h =>
    cases df with
    | nil => simp [colNames] at h
    | cons c t => simp
  · cases df <;> simp

lemma mem_colNames_iff_countName_pos (df : DF) (n : String) :
    n ∈ colNames df ↔ 0 < countName df n := by
  constructor
  · intro h
    obtain ⟨c, hc, rfl⟩ := List.mem_map.1 h
    exact countName_pos_of_mem df c c.name hc rfl
  · intro h
    unfold countName at h
    obtain ⟨c, hc⟩ := List.exists_mem_of_length_pos h
    have := List.mem_filter.1 hc
    have hn : c.name = n := by simpa using this.2
    exact hn ▸ List.mem_map_of_mem _ this.1

lemma mem_colNames_setScalar_of_mem (df : DF) (n : String) (v : Cell)
    (m : String) (h : m ∈ colNames df) : m ∈ colNames (setScalar df n v) := by
  unfold setScalar
  split
  · obtain ⟨c, hc, rfl⟩ := List.mem_map.1 h
    unfold colNames
    rw [List.map_map]
    refine List.mem_map.2 ⟨c, hc, ?_⟩
    by_cases hn : c.name = n <;> simp [hn]
  · unfold colNames
    rw [List.map_append]
    exact List.mem_append.2 (Or.inl h)

lemma self_mem_colNames_setScalar (df : DF) (n : String) (v : Cell) :
    n ∈ colNames (setScalar df n v) := by
  unfold setScalar
  split
  · next h =>
    have hm : n ∈ colNames df := by
      simpa [List.contains_iff_exists_mem_beq, beq_iff_eq] using h
    obtain ⟨c, hc, rfl⟩ := List.mem_map.1 hm
    unfold colNames
    rw [List.map_map]
    exact List.mem_map.2 ⟨c, hc, by simp⟩
  · unfold colNames
    rw [List.map_append]
    exact List.mem_append.2 (Or.inr (by simp))

lemma getCells_setScalar_ne (df : DF) (n : String) (v : Cell) (m : String)
    (h : ¬m = n) : getCells (setScalar df n v) m = getCells df m := by
  unfold setScalar
  split
  · unfold getCells
    rw [find?_map_name_preserving df
      (fun c => if c.name = n then ⟨c.name, List.replicate c.cells.length v⟩ else c)
      (fun c => by by_cases hc : c.name = n <;> simp [hc]) m]
    cases hf : df.find? (fun c => c.name = m) with
    | none =>
      show List.replicate (nrows (df.map (fun c =>
          if c.name = n then ⟨c.name, List.replicate c.cells.length v⟩ else c)))
          Cell.nan = List.replicate (nrows df) Cell.nan
      rw [nrows_map_of_length df _
        (fun c => by by_cases hc : c.name = n <;> simp [hc])]
    | some c =>
      have hcm : c.name = m := by simpa using List.find?_some hf
      have hne : ¬c.name = n := by rw [hcm]; exact h
      simp [hf, hne]
  · unfold getCells
    rw [List.find?_append]
    cases hf : df.find? (fun c => c.name = m) with
    | none =>
      have hnm : ¬n = m := fun hh => h hh.symm
      have h2 : List.find? (fun c => c.name = m)
          [(⟨n, List.replicate (nrows df) v⟩ : Col)] = none := by
        simp [hnm]
      rw [h2]
      show List.replicate
          (nrows (df ++ [(⟨n, List.replicate (nrows df) v⟩ : Col)])) Cell.nan =
        List.replicate (nrows df) Cell.nan
      rw [nrows_append_single df _ (by simp)]
    | some c => simp [hf]

lemma getCells_setScalar_self (df : DF) (n : String) (v : Cell) (hr : Rect df) :
    getCells (setScalar df n v) n = List.replicate (nrows df) v := by
  unfold setScalar
  split
  · next hcont =>
    unfold getCells
    rw [find?_map_name_preserving df
      (fun c => if c.name = n then ⟨c.name, List.replicate c.cells.length v⟩ else c)
      (fun c => by by_cases hc : c.name = n <;> simp [hc]) n]
    have hm : n ∈ colNames df := by
      simpa [List.contains_iff_exists_mem_beq, beq_iff_eq] using hcont
    rw [mem_colNames_iff_countName_pos] at hm
    cases hf : df.find? (fun c => c.name = n) with
    | none =>
      rw [List.find?_eq_none] at hf
      unfold countName at hm
      obtain ⟨c, hc⟩ := List.exists_mem_of_length_pos hm
      have hmf := List.mem_filter.1 hc
      exact absurd (by simpa using hmf.2) (by simpa using hf c hmf.1)
    | some c =>
      have hcn : c.name = n := by simpa using List.find?_some hf
      have hlen : c.cells.length = nrows df :=
        hr c (List.mem_of_find?_eq_some hf)
      simp [hcn, hlen]
  · next hcont =>
    unfold getCells
    rw [List.find?_append]
    have h1 : df.find? (fun c => c.name = n) = none := by
      rw [List.find?_eq_none]
      intro c hc hp
      have hcn : c.name = n := by simpa using hp
      exact hcont (List.contains_iff_exists_mem_beq.2
        ⟨c.name, List.mem_map_of_mem _ hc, by simp [hcn]⟩)
    simp [h1]

lemma find?_names_map (names : List String) (g : String → List Cell) (n : String)
    (h : n ∈ names) :
    (names.map (fun m => (⟨m, g m⟩ : Col))).find? (fun c => c.name = n) =
      some ⟨n, g n⟩ := by
  induction names with
  | nil => cases h
  | cons m t ih =>
    rw [List.map_cons]
    by_cases hm : m = n
    · subst hm
      exact List.find?_cons_of_pos _ (by simp)
    · rw [List.find?_cons_of_neg _ (by simp [hm])]
      exact ih (by rcases List.mem_cons.1 h with h | h
                   · exact absurd h.symm hm
                   · exact h)

lemma mem_concat_names (df1 df2 : DF) (n : String)
    (h : n ∈ colNames df1 ∨ n ∈ colNames df2) :
    n ∈ colNames df1 ++
      (colNames df2).filter (fun m => !((colNames df1).contains m)) := by
  by_cases h1 : n ∈ colNames df1
  · exact List.mem_append.2 (Or.inl h1)
  · rcases h with h | h
    · exact absurd h h1
    · refine List.mem_append.2 (Or.inr (List.mem_filter.2 ⟨h, ?_⟩))
      have hc : (colNames df1).contains n = false := by
        rw [Bool.eq_false_iff]
        intro hcont
        obtain ⟨b, hb, hnb⟩ := List.contains_iff_exists_mem_beq.1 hcont
        have hnbe : n = b := by simpa using hnb
        exact h1 (hnbe ▸ hb)
      show (!(colNames df1).contains n) = true
      rw [hc]
      rfl

lemma getCells_eq (df : DF) (n : String) :
    getCells df n = match df.find? (fun c => c.name = n) with
      | some c => c.cells
      | none => List.replicate (nrows df) Cell.nan := rfl

lemma length_getCells (df : DF) (n : String) (hr : Rect df) :
    (getCells df n).length = nrows df := by
  unfold getCells
  cases hf : df.find? (fun c => c.name = n) with
  | none => simp
  | some c => exact hr c (List.mem_of_find?_eq_some hf)

lemma getCells_pd_concat (df1 df2 : DF) (n : String)
    (h : n ∈ colNames df1 ∨ n ∈ colNames df2) :
    getCells (pd_concat df1 df2) n = getCells df1 n ++ getCells df2 n := by
  have hm := mem_concat_names df1 df2 n h
  have hfind := find?_names_map
    (colNames df1 ++ (colNames df2).filter (fun m => !((colNames df1).contains m)))
    (fun m => getCells df1 m ++ getCells df2 m) n hm
  rw [getCells_eq (pd_concat df1 df2) n]
  have e : (pd_concat df1 df2).find? (fun c => c.name = n) =
      some ⟨n, getCells df1 n ++ getCells df2 n⟩ := by
    show ((colNames df1 ++ (colNames df2).filter
        (fun m => !((colNames df1).contains m))).map
        (fun m => (⟨m, getCells df1 m ++ getCells df2 m⟩ : Col))).find?
        (fun c => c.name = n) = some ⟨n, getCells df1 n ++ getCells df2 n⟩
    exact hfind
  rw [e]

lemma nrows_pd_concat (df1 df2 : DF) (hne : df1 ≠ [])
    (hr1 : Rect df1) (hr2 : Rect df2) :
    nrows (pd_concat df1 df2) = nrows df1 + nrows df2 := by
  cases df1 with
  | nil => exact absurd rfl hne
  | cons c0 t =>
    have e : pd_concat (c0 :: t) df2 =
        (⟨c0.name, getCells (c0 :: t) c0.name ++ getCells df2 c0.name⟩ : Col) ::
        ((colNames t ++ (colNames df2).filter
          (fun m => !((colNames (c0 :: t)).contains m))).map
          (fun m => (⟨m, getCells (c0 :: t) m ++ getCells df2 m⟩ : Col))) := rfl
    rw [e]
    show (getCells (c0 :: t) c0.name ++ getCells df2 c0.name).length = _
    rw [List.length_append, length_getCells _ _ hr1, length_getCells _ _ hr2]

/-- C3: the combined table's `Revenue` total is the sum of the two
standardized inputs' `Revenue` totals, and likewise for `Expenses`.
(The frames are assumed to carry unique column labels, the regime in
which `pd.concat` is defined.) -/
theorem claim_C3_merge_totals (rawA rawB dfA dfB : DF)
    (hA : _standardize_dataframe rawA = some dfA)
    (hB : _standardize_dataframe rawB = some dfB)
    (huA : (colNames dfA).Nodup) (huB : (colNames dfB).Nodup) :
    total_revenue (df_combined dfA dfB) =
      total_revenue dfA + total_revenue dfB ∧
    total_expenses (df_combined dfA dfB) =
      total_expenses dfA + total_expenses dfB := by
  obtain ⟨hokA, heA⟩ := (std_eq_some_iff rawA dfA).1 hA
  obtain ⟨cdA, crA, ceA⟩ := heA ▸ countName_stdResult_canon rawA hokA
  have hmemR : "Revenue" ∈ colNames dfA :=
    (mem_colNames_iff_countName_pos _ _).2 (by omega)
  have hmemE : "Expenses" ∈ colNames dfA :=
    (mem_colNames_iff_countName_pos _ _).2 (by omega)
  constructor
  · have step : getCells (df_combined dfA dfB) "Revenue" =
        getCells dfA "Revenue" ++ getCells dfB "Revenue" := by
      unfold df_combined
      rw [getCells_pd_concat _ _ _
        (Or.inl (mem_colNames_setScalar_of_mem _ _ _ _ hmemR)),
        getCells_setScalar_ne _ _ _ _ (by decide),
        getCells_setScalar_ne _ _ _ _ (by decide)]
    unfold total_revenue colSum
    rw [step, List.map_append, List.sum_append]
  · have step : getCells (df_combined dfA dfB) "Expenses" =
        getCells dfA "Expenses" ++ getCells dfB "Expenses" := by
      unfold df_combined
      rw [getCells_pd_concat _ _ _
        (Or.inl (mem_colNames_setScalar_of_mem _ _ _ _ hmemE)),
        getCells_setScalar_ne _ _ _ _ (by decide),
        getCells_setScalar_ne _ _ _ _ (by decide)]
    unfold total_expenses colSum
    rw [step, List.map_append, List.sum_append]

/-- Witness for C3 on two one-column tables. -/
theorem claim_C3_witness :
    total_revenue (df_combined
      [⟨"Revenue", [Cell.num 3, Cell.num 4]⟩,
        ⟨"Date", [Cell.natMarker, Cell.natMarker]⟩,
        ⟨"Expenses", [Cell.num 0, Cell.num 0]⟩]
      [⟨"Expenses", [Cell.num 5]⟩, ⟨"Date", [Cell.natMarker]⟩,
        ⟨"Revenue", [Cell.num 0]⟩]) =
      total_revenue [⟨"Revenue", [Cell.num 3, Cell.num 4]⟩,
        ⟨"Date", [Cell.natMarker, Cell.natMarker]⟩,
        ⟨"Expenses", [Cell.num 0, Cell.num 0]⟩] +
      total_revenue [⟨"Expenses", [Cell.num 5]⟩, ⟨"Date", [Cell.natMarker]⟩,
        ⟨"Revenue", [Cell.num 0]⟩] ∧
    total_expenses (df_combined
      [⟨"Revenue", [Cell.num 3, Cell.num 4]⟩,
        ⟨"Date", [Cell.natMarker, Cell.natMarker]⟩,
        ⟨"Expenses", [Cell.num 0, Cell.num 0]⟩]
      [⟨"Expenses", [Cell.num 5]⟩, ⟨"Date", [Cell.natMarker]⟩,
        ⟨"Revenue", [Cell.num 0]⟩]) =
      total_expenses [⟨"Revenue", [Cell.num 3, Cell.num 4]⟩,
        ⟨"Date", [Cell.natMarker, Cell.natMarker]⟩,
        ⟨"Expenses", [Cell.num 0, Cell.num 0]⟩] +
      total_expenses [⟨"Expenses", [Cell.num 5]⟩, ⟨"Date", [Cell.natMarker]⟩,
        ⟨"Revenue", [Cell.num 0]⟩] :=
  claim_C3_merge_totals [⟨"Sales", [Cell.num 3, Cell.num 4]⟩]
    [⟨"Cost", [Cell.num 5]⟩] _ _ (by decide) (by decide) (by decide) (by decide)

/-- The structural facts claim C4 asserts of the Merger on
standardized inputs `dfA`, `dfB`: `Company` labels every `dfA` row
"Company A" and every `dfB` row "Company B" with all `dfA` rows first,
the combined row count is the sum of the inputs' row counts, and every
shared data column is `dfA`'s cells followed by `dfB`'s cells in their
original order. -/
def C4Prop (dfA dfB : DF) : Prop :=
  getCells (df_combined dfA dfB) "Company" =
    List.replicate (nrows dfA) (Cell.str "Company A") ++
      List.replicate (nrows dfB) (Cell.str "Company B") ∧
  nrows (df_combined dfA dfB) = nrows dfA + nrows dfB ∧
  ∀ n, n ∈ colNames dfA → n ∈ colNames dfB → ¬n = "Company" →
    getCells (df_combined dfA dfB) n = getCells dfA n ++ getCells dfB n

/-- C4: the Merger labels and stacks the two standardized tables,
`dfA`'s rows before `dfB`'s, preserving in-table row order, with the
combined row count the sum of the inputs'. -/
theorem claim_C4_merge_structure (rawA rawB dfA dfB : DF)
    (hA : _standardize_dataframe rawA = some dfA)
    (hB : _standardize_dataframe rawB = some dfB)
    (hrA : Rect dfA) (hrB : Rect dfB)
    (huA : (colNames dfA).Nodup) (huB : (colNames dfB).Nodup) :
    C4Prop dfA dfB := by
  refine ⟨?_, ?_, ?_⟩
  · unfold df_combined
    rw [getCells_pd_concat _ _ _ (Or.inl (self_mem_colNames_setScalar _ _ _)),
      getCells_setScalar_self dfA _ _ hrA, getCells_setScalar_self dfB _ _ hrB]
  · unfold df_combined
    rw [nrows_pd_concat _ _ (setScalar_ne_nil _ _ _)
      (Rect_setScalar _ _ _ hrA) (Rect_setScalar _ _ _ hrB),
      nrows_setScalar, nrows_setScalar]
  · intro n hnA hnB hne
    unfold df_combined
    rw [getCells_pd_concat _ _ _
      (Or.inl (mem_colNames_setScalar_of_mem _ _ _ _ hnA)),
      getCells_setScalar_ne _ _ _ _ hne, getCells_setScalar_ne _ _ _ _ hne]

/-- Witness for C4: a 2-row table A and a 1-row table B. -/
theorem claim_C4_witness :
    C4Prop
      [⟨"Revenue", [Cell.num 3, Cell.num 4]⟩,
        ⟨"Date", [Cell.natMarker, Cell.natMarker]⟩,
        ⟨"Expenses", [Cell.num 0, Cell.num 0]⟩]
      [⟨"Expenses", [Cell.num 5]⟩, ⟨"Date", [Cell.natMarker]⟩,
        ⟨"Revenue", [Cell.num 0]⟩] :=
  claim_C4_merge_structure [⟨"Sales", [Cell.num 3, Cell.num 4]⟩]
    [⟨"Cost", [Cell.num 5]⟩] _ _ (by decide) (by decide) (by decide) (by decide)
    (by decide) (by decide)

/-! ### Chart-axis lemmas -/

lemma dateLe_trans (a b c : Cell) (h1 : dateLe a b = true)
    (h2 : dateLe b c = true) : dateLe a c = true := by
  unfold dateLe at *
  cases a <;> cases b <;> cases c <;> simp_all <;> omega

lemma dateLe_total (a b : Cell) : (dateLe a b || dateLe b a) = true := by
  unfold dateLe
  cases a <;> cases b <;> simp [Int.le_total]

/-- C8: with at least one non-null date the chart plots over `Date`
with rows rearranged ascending by date; with every date null it plots
over a synthesized `Period` axis carrying the row indices. -/
theorem claim_C8_axis (df : DF) (hr : Rect df) (hd : countName df "Date" = 1)
    (hi : ¬"index" ∈ colNames df) :
    ((getCells df "Date").any (fun c => !(isNa c)) = true →
      (chooseAxis df).1 = "Date" ∧
      List.Pairwise (fun a b => dateLe a b = true)
        (getCells (chooseAxis df).2 "Date")) ∧
    ((getCells df "Date").all isNa = true →
      (chooseAxis df).1 = "Period" ∧
      getCells (chooseAxis df).2 "Period" =
        (List.range (nrows df)).map (fun i => Cell.num (Int.ofNat i))) := by
  constructor
  · intro h
    have hcont : (colNames df).contains "Date" = true := by
      have hm : "Date" ∈ colNames df :=
        (mem_colNames_iff_countName_pos df "Date").2 (by omega)
      exact List.contains_iff_exists_mem_beq.2 ⟨"Date", hm, by simp⟩
    have hall : (getCells df "Date").all isNa = false := by
      obtain ⟨x, hx, hnx⟩ := List.any_eq_true.1 h
      rw [Bool.eq_false_iff]
      intro hall
      have hxna := List.all_eq_true.1 hall x hx
      rw [hxna] at hnx
      cases hnx
    have e : chooseAxis df = ("Date", sortValuesDate df) := by
      unfold chooseAxis
      rw [hcont, hall]
      rfl
    have hex : ∃ c1, df.find? (fun x => x.name = "Date") = some c1 := by
      cases hf : df.find? (fun x => x.name = "Date") with
      | none =>
        rw [List.find?_eq_none] at hf
        have hm : "Date" ∈ colNames df :=
          (mem_colNames_iff_countName_pos df "Date").2 (by omega)
        obtain ⟨c₀, hc₀, he₀⟩ := List.mem_map.1 hm
        exact absurd (by simpa using he₀) (by simpa using hf c₀ hc₀)
      | some c1 => exact ⟨c1, rfl⟩
    obtain ⟨c, hfc⟩ := hex
    have hkeys : getCells df "Date" = c.cells := by
      rw [getCells_eq, hfc]
    refine ⟨by rw [e], ?_⟩
    rw [e]
    have e2 : getCells (sortValuesDate df) "Date" =
        ((List.range (nrows df)).mergeSort
          (fun i j => dateLe (c.cells.getD i Cell.nan)
            (c.cells.getD j Cell.nan))).map
          (fun i => c.cells.getD i Cell.nan) := by
      rw [getCells_eq]
      have hfind : (sortValuesDate df).find? (fun x => x.name = "Date") =
          some ⟨c.name, ((List.range (nrows df)).mergeSort
            (fun i j => dateLe ((getCells df "Date").getD i Cell.nan)
              ((getCells df "Date").getD j Cell.nan))).map
            (fun i => c.cells.getD i Cell.nan)⟩ := by
        show ((df.map (fun col : Col => (⟨col.name,
          (((List.range (nrows df)).mergeSort
            (fun i j => dateLe ((getCells df "Date").getD i Cell.nan)
              ((getCells df "Date").getD j Cell.nan)))).map
            (fun i => col.cells.getD i Cell.nan)⟩ : Col))).find?
          (fun x => x.name = "Date")) = _
        rw [find?_map_name_preserving df
          (fun col : Col => (⟨col.name, (((List.range (nrows df)).mergeSort
            (fun i j => dateLe ((getCells df "Date").getD i Cell.nan)
              ((getCells df "Date").getD j Cell.nan)))).map
            (fun i => col.cells.getD i Cell.nan)⟩ : Col))
          (fun col => rfl) "Date", hfc]
        rfl
      rw [hfind, hkeys]
    rw [e2, List.pairwise_map]
    exact List.sorted_mergeSort
      (fun i j k h1 h2 => dateLe_trans (c.cells.getD i Cell.nan)
        (c.cells.getD j Cell.nan) (c.cells.getD k Cell.nan) h1 h2)
      (fun i j => dateLe_total (c.cells.getD i Cell.nan)
        (c.cells.getD j Cell.nan))
      (List.range (nrows df))
  · intro h
    have e : chooseAxis df = ("Period", resetIndexPeriod df) := by
      unfold chooseAxis
      rw [h, Bool.or_true]
      rfl
    refine ⟨by rw [e], ?_⟩
    rw [e, getCells_eq]
    have hfind : (resetIndexPeriod df).find? (fun c => c.name = "Period") =
        some ⟨"Period", (List.range (nrows df)).map (fun i => Cell.num (Int.ofNat i))⟩ := by
      show (((⟨"index", (List.range (nrows df)).map
          (fun i => Cell.num (Int.ofNat i))⟩ : Col) :: df).map
        (fun c => if c.name = "index" then (⟨"Period", c.cells⟩ : Col) else c)).find?
        (fun c => c.name = "Period") = _
      rw [List.map_cons, List.find?_cons_of_pos _ (by simp)]
      simp
    rw [hfind]

/-- Witness for C8, `Date` branch, on a 3-row combined table with one
null date. -/
theorem claim_C8_witness :
    (chooseAxis [⟨"Date", [Cell.date 20240102, Cell.natMarker, Cell.date 20240101]⟩,
      ⟨"Revenue", [Cell.num 1, Cell.num 2, Cell.num 3]⟩]).1 = "Date" ∧
    List.Pairwise (fun a b => dateLe a b = true)
      (getCells (chooseAxis
        [⟨"Date", [Cell.date 20240102, Cell.natMarker, Cell.date 20240101]⟩,
          ⟨"Revenue", [Cell.num 1, Cell.num 2, Cell.num 3]⟩]).2 "Date") :=
  (claim_C8_axis
    [⟨"Date", [Cell.date 20240102, Cell.natMarker, Cell.date 20240101]⟩,
      ⟨"Revenue", [Cell.num 1, Cell.num 2, Cell.num 3]⟩]
    (by decide) (by decide) (by decide)).1 (by decide)

/-! ### Top-level error handling -/

/-- C9: a failed CSV parse of either file surfaces as the sidebar
load-failure message and no dashboard element renders; the dashboard
state is reached only when both files parse and both standardize. -/
theorem claim_C9_load_failure (f1 f2 : Except String DF) :
    (∀ e, f1 = Except.error e →
      runApp (some f1) (some f2) =
        RenderState.loadError ("Error loading files: " ++ e)) ∧
    (∀ d1 e, f1 = Except.ok d1 → f2 = Except.error e →
      runApp (some f1) (some f2) =
        RenderState.loadError ("Error loading files: " ++ e)) ∧
    (∀ comb, runApp (some f1) (some f2) = RenderState.dashboard comb →
      ∃ d1 d2 s1 s2, f1 = Except.ok d1 ∧ f2 = Except.ok d2 ∧
        _standardize_dataframe d1 = some s1 ∧
        _standardize_dataframe d2 = some s2 ∧ comb = df_combined s1 s2) := by
  refine ⟨?_, ?_, ?_⟩
  · rintro e rfl
    rfl
  · rintro d1 e rfl rfl
    rfl
  · intro comb h
    cases f1 with
    | error e =>
      have he : runApp (some (Except.error e : Except String DF)) (some f2) =
          RenderState.loadError ("Error loading files: " ++ e) := rfl
      rw [he] at h
      cases h
    | ok d1 =>
      cases f2 with
      | error e =>
        have he : runApp (some (Except.ok d1)) (some (Except.error e)) =
            RenderState.loadError ("Error loading files: " ++ e) := rfl
        rw [he] at h
        cases h
      | ok d2 =>
        have hra : runApp (some (Except.ok d1)) (some (Except.ok d2)) =
            (match tryLoad (Except.ok d1) (Except.ok d2) with
            | Except.ok c2 => RenderState.dashboard c2
            | Except.error e =>
              RenderState.loadError ("Error loading files: " ++ e)) := rfl
        have ht : tryLoad (Except.ok d1) (Except.ok d2) =
            (match _standardize_dataframe d1 with
            | none => Except.error "coercion of a duplicated column failed"
            | some s1 =>
              match _standardize_dataframe d2 with
              | none => Except.error "coercion of a duplicated column failed"
              | some s2 => Except.ok (df_combined s1 s2)) := rfl
        rw [hra, ht] at h
        cases hs1 : _standardize_dataframe d1 with
        | none =>
          rw [hs1] at h
          simp at h
        | some s1 =>
          rw [hs1] at h
          cases hs2 : _standardize_dataframe d2 with
          | none =>
            rw [hs2] at h
            simp at h
          | some s2 =>
            rw [hs2] at h
            simp at h
            exact ⟨d1, d2, s1, s2, rfl, rfl, hs1, hs2, h.symm⟩

/-- Witness for C9: a parse failure of the first file is reported with
its message and no dashboard state is produced. -/
theorem claim_C9_witness :
    runApp (some (Except.error "no columns to parse from file"))
      (some (Except.ok ([] : DF))) =
      RenderState.loadError "Error loading files: no columns to parse from file" :=
  (claim_C9_load_failure (Except.error "no columns to parse from file")
    (Except.ok [])).1 "no columns to parse from file" rfl

end Dashboard

